import Mathlib

/-!
Verification of the natural-language specification of the
`download-station-api` repository against its source
(`download_station_api/download_station_api.py`).

The Python client is embedded shallowly:

* JSON payloads (the values returned by `response.json()`) are modelled by
  the inductive type `JVal`; Python dictionary subscripting `d[k]`, list
  indexing `l[i]`, truthiness, `is True` / `is False` identity tests and
  `==` string comparison are modelled by executable functions on `JVal`.
* Python exceptions that the code under `src/` can raise are the
  constructors of `PyErr` (the built-ins `AttributeError`, `KeyError`,
  `TypeError`, `IndexError`, and the class `AuthError` defined by the
  module, which the specification calls `AuthenticationError`).
  Fallible code returns `Except PyErr`.
* The network is modelled by oracles `respond : Request → JVal` mapping the
  request the client would issue to the JSON body of the reply; polling
  code takes `Nat`-indexed oracles, one per round trip.  `_get_api_data`
  additionally reports how many HTTP GET requests it issued.
* The unbounded `while` loops are given explicit fuel: a result of
  `Except.ok none` means the loop was still running when the fuel ran out.
* Sleeps and the individual remote calls performed by the two polling
  workflows are recorded in an event trace (`Ev`).
-/

/-- Exceptions raisable by the embedded code: the Python built-ins it can
hit (`AttributeError` from `None.get`, `KeyError` from a missing dict key,
`TypeError` from subscripting a non-container, `IndexError` from list
indexing out of range) and the module's own `AuthError` class. -/
inductive PyErr where
  | attributeError
  | keyError
  | typeError
  | indexError
  | authError
deriving DecidableEq

/-- JSON values as returned by `response.json()` in the Python client. -/
inductive JVal where
  | bool (b : Bool)
  | num (n : Int)
  | str (s : String)
  | arr (elems : List JVal)
  | obj (fields : List (String × JVal))

/-- Python `v is True`. -/
def JVal.isTrue : JVal → Bool
  | .bool true => true
  | _ => false

/-- Python `v is False`. -/
def JVal.isFalse : JVal → Bool
  | .bool false => true
  | _ => false

/-- Python truthiness of a JSON value (`if data['success']:`). -/
def JVal.truthy : JVal → Bool
  | .bool b => b
  | .num n => n != 0
  | .str s => !s.isEmpty
  | .arr es => !es.isEmpty
  | .obj fs => !fs.isEmpty

/-- Python `v == s` for a string literal `s`. -/
def JVal.eqStr : JVal → String → Bool
  | .str s, t => s == t
  | _, _ => false

/-- Python subscripting `v[key]` with a string key: a dict yields the bound
value or raises `KeyError`; any non-dict raises `TypeError`. -/
def JVal.getItem : JVal → String → Except PyErr JVal
  | .obj fs, key =>
      match fs.lookup key with
      | some v => .ok v
      | none => .error .keyError
  | _, _ => .error .typeError

/-- Python subscripting `v[i]` with an integer index: lists (and strings)
index or raise `IndexError`; a dict with string keys raises `KeyError`;
anything else raises `TypeError`. -/
def JVal.index : JVal → Nat → Except PyErr JVal
  | .arr es, i =>
      match es.get? i with
      | some v => .ok v
      | none => .error .indexError
  | .str s, i =>
      match s.toList.get? i with
      | some ch => .ok (.str (String.mk [ch]))
      | none => .error .indexError
  | .obj _, _ => .error .keyError
  | _, _ => .error .typeError

/-- The specification's name for each exception class the program can
raise (section 7 of the spec names the module's `AuthError` class
`AuthenticationError`; the Python built-ins keep their own names).  The
spec's `UnknownEndpoint` and `SearchStartError` kinds correspond to no
class the code can raise. -/
def specNameOfPyErr : PyErr → String
  | .attributeError => "AttributeError"
  | .keyError => "KeyError"
  | .typeError => "TypeError"
  | .indexError => "IndexError"
  | .authError => "AuthenticationError"

/-- One record of the module-level `nas_api_endpoint_details` dict. -/
structure EndpointInfo where
  maxVersion : Nat
  minVersion : Nat
  path : String
  api_endpoint : String

/-- The module-level endpoint registry, in source order. -/
def nas_api_endpoint_details : List (String × EndpointInfo) :=
  [("API_Info", ⟨1, 1, "query.cgi", "SYNO.API.Info"⟩),
   ("API_Auth", ⟨6, 1, "auth.cgi", "SYNO.API.Auth"⟩),
   ("DS_Info", ⟨2, 1, "DownloadStation/info.cgi", "SYNO.DownloadStation.Info"⟩),
   ("DS_BT_Search", ⟨1, 1, "DownloadStation/btsearch.cgi", "SYNO.DownloadStation.BTSearch"⟩),
   ("DS_Task", ⟨3, 1, "DownloadStation/task.cgi", "SYNO.DownloadStation.Task"⟩)]

/-- An HTTP GET request as issued by `requests.get(api_url, params=params)`:
the composed URL and the query-parameter map in insertion order (Python
dicts preserve insertion order). -/
structure Request where
  url : String
  params : List (String × JVal)

/-- The raw `requests` response object, as used with `return_json=False`:
its HTTP status code and the value `response.json()` would produce. -/
structure HttpResponse where
  status_code : Nat
  bodyJson : JVal

/-- `_get_api_data(api_endpoint, params)` with `return_json=True` (the
default): looks the logical name up in the registry with `dict.get`; when
absent, `endpoint_info` is `None` and `endpoint_info.get("api_endpoint")`
raises `AttributeError` before any request is sent.  Otherwise it issues
exactly one GET and returns the parsed JSON body.  The second component
counts the HTTP requests issued. -/
def _get_api_data (nas_address api_endpoint : String) (params : List (String × JVal))
    (respond : Request → JVal) : Except PyErr JVal × Nat :=
  match nas_api_endpoint_details.lookup api_endpoint with
  | none => (.error .attributeError, 0)
  | some info =>
      (.ok (respond ⟨nas_address ++ "/" ++ info.path ++ "?api=" ++ info.api_endpoint, params⟩), 1)

/-- `_get_api_data(api_endpoint, params, return_json=False)`: identical
dispatch, but the raw response object is returned to the caller. -/
def _get_api_data_raw (nas_address api_endpoint : String) (params : List (String × JVal))
    (respond : Request → HttpResponse) : Except PyErr HttpResponse × Nat :=
  match nas_api_endpoint_details.lookup api_endpoint with
  | none => (.error .attributeError, 0)
  | some info =>
      (.ok (respond ⟨nas_address ++ "/" ++ info.path ++ "?api=" ++ info.api_endpoint, params⟩), 1)

/-- The `authentication_params` dict built inside `authenticate`, in
source order. -/
def authentication_params (session format method : String) (version : Int)
    (account passwd : String) : List (String × JVal) :=
  [("session", .str session), ("format", .str format), ("method", .str method),
   ("version", .num version), ("account", .str account), ("passwd", .str passwd)]

/-- `authenticate(session, format, method, version)`: dispatches to
`API_Auth`; on a truthy `success` extracts `data['data']['sid']` and
returns it, otherwise raises `AuthError`. -/
def authenticate (user_name password nas_address : String)
    (session format method : String) (version : Int)
    (respond : Request → JVal) : Except PyErr JVal := do
  let data ← (_get_api_data nas_address "API_Auth"
      (authentication_params session format method version user_name password) respond).1
  let s ← data.getItem "success"
  if s.truthy then do
    let d ← data.getItem "data"
    d.getItem "sid"
  else
    .error .authError

/-- The client object: the constructor's fields, including the session id
obtained by the blocking `authenticate` call. -/
structure DownloadStationAPI where
  user_name : String
  password : String
  nas_ip : String
  api_endpoint : String
  api_port : String
  nas_address : String
  session_id : JVal

/-- `DownloadStationAPI.__init__`: composes `nas_address` and blocks on
`authenticate('DownloadStation', 'cookie', 'login', 2)`; construction
fails whenever authentication does. -/
def DownloadStationAPI.init (user_name password nas_ip api_port api_endpoint : String)
    (respond : Request → JVal) : Except PyErr DownloadStationAPI := do
  let nas_address := "http://" ++ nas_ip ++ ":" ++ api_port ++ "/" ++ api_endpoint
  let session_id ← authenticate user_name password nas_address
      "DownloadStation" "cookie" "login" 2 respond
  pure ⟨user_name, password, nas_ip, api_endpoint, api_port, nas_address, session_id⟩

/-- The `get_info_params` dict of `get_individual_download_info`, in
source order (`_sid` written last). -/
def get_individual_download_info_params (download_task_id sid : JVal) :
    List (String × JVal) :=
  [("version", .num 1), ("method", .str "getinfo"), ("additional", .str "detail,file"),
   ("id", download_task_id), ("_sid", sid)]

/-- The `get_info_params` dict of `get_download_info`, in source order. -/
def get_download_info_params (sid : JVal) : List (String × JVal) :=
  [("version", .num 1), ("method", .str "list"), ("additional", .str "detail,file"),
   ("_sid", sid)]

/-- The `search_params` dict of `add_download_task`, in source order. -/
def add_download_task_params (url destination : String) (sid : JVal) :
    List (String × JVal) :=
  [("version", .num 2), ("method", .str "create"), ("uri", .str url),
   ("destination", .str destination), ("_sid", sid)]

/-- The `resume_params` dict of `resume_download_task`, in source order. -/
def resume_params (download_task_id sid : JVal) : List (String × JVal) :=
  [("version", .num 1), ("method", .str "resume"), ("id", download_task_id), ("_sid", sid)]

/-- The `delete_params` dict of `remove_download_task`, in source order. -/
def delete_params (download_task_id sid : JVal) : List (String × JVal) :=
  [("version", .num 1), ("method", .str "delete"), ("id", download_task_id), ("_sid", sid)]

/-- `get_individual_download_info`: on `data['success'] is True` returns
`data['data']`, otherwise logs and returns the Python value `False`. -/
def get_individual_download_info (c : DownloadStationAPI) (download_task_id : JVal)
    (respond : Request → JVal) : Except PyErr JVal := do
  let data ← (_get_api_data c.nas_address "DS_Task"
      (get_individual_download_info_params download_task_id c.session_id) respond).1
  let s ← data.getItem "success"
  if s.isTrue then data.getItem "data"
  else pure (.bool false)

/-- `get_download_info`: identical shape with the `list` method. -/
def get_download_info (c : DownloadStationAPI) (respond : Request → JVal) :
    Except PyErr JVal := do
  let data ← (_get_api_data c.nas_address "DS_Task"
      (get_download_info_params c.session_id) respond).1
  let s ← data.getItem "success"
  if s.isTrue then data.getItem "data"
  else pure (.bool false)

/-- `add_download_task(url, destination)`: returns `True` exactly when
`data['success'] is True`, else logs and returns `False`. -/
def add_download_task (c : DownloadStationAPI) (url destination : String)
    (respond : Request → JVal) : Except PyErr Bool := do
  let data ← (_get_api_data c.nas_address "DS_Task"
      (add_download_task_params url destination c.session_id) respond).1
  let s ← data.getItem "success"
  pure s.isTrue

/-- `resume_download_task(download_task_id)`: same boolean contract. -/
def resume_download_task (c : DownloadStationAPI) (download_task_id : JVal)
    (respond : Request → JVal) : Except PyErr Bool := do
  let data ← (_get_api_data c.nas_address "DS_Task"
      (resume_params download_task_id c.session_id) respond).1
  let s ← data.getItem "success"
  pure s.isTrue

/-- `remove_download_task(download_task_id)`: same boolean contract. -/
def remove_download_task (c : DownloadStationAPI) (download_task_id : JVal)
    (respond : Request → JVal) : Except PyErr Bool := do
  let data ← (_get_api_data c.nas_address "DS_Task"
      (delete_params download_task_id c.session_id) respond).1
  let s ← data.getItem "success"
  pure s.isTrue

/-- The `search_params` dict shared by the status check of
`check_if_search_is_done` and the post-wait listing of
`bt_search_for_show` (both build the identical literal), in source
order. -/
def check_if_search_is_done_params (quality_to_search : String)
    (search_task_id sid : JVal) : List (String × JVal) :=
  [("sort_by", .str "seeds"), ("sort_direction", .str "desc"), ("version", .num 1),
   ("method", .str "list"), ("filter_title", .str quality_to_search),
   ("taskid", search_task_id), ("_sid", sid)]

/-- `check_if_search_is_done`: issues the list request; when
`data['data']['finished'] is False` it returns that `False`, otherwise it
returns the whole `data['data']` payload. -/
def check_if_search_is_done (c : DownloadStationAPI) (search_task_id : JVal)
    (quality_to_search : String) (respond : Request → JVal) : Except PyErr JVal := do
  let data ← (_get_api_data c.nas_address "DS_BT_Search"
      (check_if_search_is_done_params quality_to_search search_task_id c.session_id)
      respond).1
  let d ← data.getItem "data"
  let f ← d.getItem "finished"
  if f.isFalse then pure f else pure d

/-- Observable events of the polling workflows: a sleep of the given
number of seconds, the k-th search status check, a resume call, the i-th
status read of the correction loop, and a delete call. -/
inductive Ev where
  | sleep (seconds : Nat)
  | statusCheck (k : Nat)
  | resumeCall
  | infoCheck (k : Nat)
  | deleteCall
deriving DecidableEq

def Ev.isStatusCheck : Ev → Bool
  | .statusCheck _ => true
  | _ => false

def Ev.isResume : Ev → Bool
  | .resumeCall => true
  | _ => false

def Ev.isInfoCheck : Ev → Bool
  | .infoCheck _ => true
  | _ => false

def Ev.isDelete : Ev → Bool
  | .deleteCall => true
  | _ => false

/-- The `search_params` start dict shared by `bt_search_for_show` and
`bt_search_with_wait`, in source order. -/
def bt_search_start_params (search_term : String) (sid : JVal) : List (String × JVal) :=
  [("version", .num 1), ("method", .str "start"), ("keyword", .str search_term),
   ("module", .str "enabled"), ("_sid", sid)]

/-- The `while check_if_search_is_done(...) is False: sleep(5)` loop of
`bt_search_with_wait`, with explicit fuel.  Checks are numbered from `k`;
`respond j` answers the j-th status request.  On exit it reports the
number of the check that broke the loop together with the event trace;
`none` means the fuel ran out with the loop still spinning. -/
def bt_search_poll (c : DownloadStationAPI) (search_task_id : JVal)
    (default_search_quality : String) (respond : Nat → Request → JVal)
    (fuel k : Nat) : Except PyErr (Option (Nat × List Ev)) :=
  match fuel with
  | 0 => pure none
  | fuel' + 1 => do
      let r ← check_if_search_is_done c search_task_id default_search_quality (respond k)
      if r.isFalse then do
        match ← bt_search_poll c search_task_id default_search_quality respond fuel' (k + 1) with
        | none => pure none
        | some (kl, evs) => pure (some (kl, Ev.statusCheck k :: Ev.sleep 5 :: evs))
      else
        pure (some (k, [Ev.statusCheck k]))

/-- `bt_search_with_wait(search_term, default_search_quality)`: issues the
start request (`respond 0`), extracts `data['data']['taskid']` (raising
`KeyError` when absent — the HTTP status is never consulted), sleeps 2,
polls until a check is not `False`, then calls `check_if_search_is_done`
once more and returns that final result with the event trace. -/
def bt_search_with_wait (c : DownloadStationAPI) (search_term default_search_quality : String)
    (respond : Nat → Request → JVal) (fuel : Nat) :
    Except PyErr (Option (JVal × List Ev)) := do
  let data ← (_get_api_data c.nas_address "DS_BT_Search"
      (bt_search_start_params search_term c.session_id) (respond 0)).1
  let d ← data.getItem "data"
  let search_task_id ← d.getItem "taskid"
  match ← bt_search_poll c search_task_id default_search_quality respond fuel 1 with
  | none => pure none
  | some (kl, evs) => do
      let res ← check_if_search_is_done c search_task_id default_search_quality
          (respond (kl + 1))
      pure (some (res, Ev.sleep 2 :: (evs ++ [Ev.statusCheck (kl + 1)])))

/-- `bt_search_for_show(search_term, wait_time, quality_to_search)`:
starts the search with `return_json=False`, extracts
`data['data']['taskid']` (raising `KeyError` when absent, before the
status code is examined); on HTTP 200 sleeps `wait_time`, issues the list
request and returns `data['data']`; on any other status logs and returns
`None`.  `respondRaw j` answers the j-th request. -/
def bt_search_for_show (c : DownloadStationAPI) (search_term : String) (wait_time : Nat)
    (quality_to_search : String) (respondRaw : Nat → Request → HttpResponse) :
    Except PyErr (Option JVal) := do
  let response ← (_get_api_data_raw c.nas_address "DS_BT_Search"
      (bt_search_start_params search_term c.session_id) (respondRaw 0)).1
  let data := response.bodyJson
  let d ← data.getItem "data"
  let search_task_id ← d.getItem "taskid"
  if response.status_code = 200 then do
    let response2 ← (_get_api_data_raw c.nas_address "DS_BT_Search"
        (check_if_search_is_done_params quality_to_search search_task_id c.session_id)
        (respondRaw 1)).1
    let d2 ← response2.bodyJson.getItem "data"
    pure (some d2)
  else
    pure none

/-- The `while new_status == old_status` loop of
`correct_finished_downloads`, with explicit fuel.  `old_status` is the
constant `'finished'` and is never reassigned, so every round compares the
freshly read status against that literal.  Each iteration `i` resumes the
task (`resumeResp i`), sleeps 5, reads
`get_individual_download_info(...)['tasks'][0]['status']` (`infoResp i`),
and on status `'downloading'` additionally deletes the task
(`deleteResp i`).  `none` means the fuel ran out with the loop still
spinning. -/
def correct_loop (c : DownloadStationAPI) (download_task_id : JVal)
    (resumeResp infoResp deleteResp : Nat → Request → JVal)
    (fuel i : Nat) : Except PyErr (Option (List Ev)) :=
  match fuel with
  | 0 => pure none
  | fuel' + 1 => do
      let _ ← resume_download_task c download_task_id (resumeResp i)
      let info ← get_individual_download_info c download_task_id (infoResp i)
      let tasks ← info.getItem "tasks"
      let t0 ← tasks.index 0
      let new_status ← t0.getItem "status"
      let delEvs ← if new_status.eqStr "downloading" then do
          let _ ← remove_download_task c download_task_id (deleteResp i)
          pure [Ev.deleteCall]
        else pure ([] : List Ev)
      if new_status.eqStr "finished" then do
        match ← correct_loop c download_task_id resumeResp infoResp deleteResp fuel' (i + 1) with
        | none => pure none
        | some evs' => pure (some (Ev.resumeCall :: Ev.sleep 5 :: Ev.infoCheck i :: (delEvs ++ evs')))
      else
        pure (some (Ev.resumeCall :: Ev.sleep 5 :: Ev.infoCheck i :: delEvs))

/-- `correct_finished_downloads(download_task_id)`: runs the loop above
and, once it exits, returns `True` unconditionally. -/
def correct_finished_downloads (c : DownloadStationAPI) (download_task_id : JVal)
    (resumeResp infoResp deleteResp : Nat → Request → JVal) (fuel : Nat) :
    Except PyErr (Option (Bool × List Ev)) := do
  match ← correct_loop c download_task_id resumeResp infoResp deleteResp fuel 0 with
  | none => pure none
  | some evs => pure (some (true, evs))

/-- Network oracle answering every request with `{success: true}`; used as
the mock for the resume and delete calls of the correction workflow. -/
def ok_respond : Nat → Request → JVal :=
  fun _ _ => .obj [("success", .bool true)]

/-- Mock server for the correction workflow's status reads: the i-th
`getinfo` request is answered with a successful payload whose single task
has status `statuses i`. -/
def mock_info_respond (statuses : Nat → String) : Nat → Request → JVal :=
  fun i _ =>
    .obj [("success", .bool true),
          ("data", .obj [("tasks", .arr [.obj [("status", .str (statuses i))]])])]

/-- Expected trace of `n` correction-loop iterations that each observe
status `'finished'`, the first one numbered `i`. -/
def finished_rounds : Nat → Nat → List Ev
  | 0, _ => []
  | n + 1, i => Ev.resumeCall :: Ev.sleep 5 :: Ev.infoCheck i :: finished_rounds n (i + 1)

/-- Expected trace of the final correction-loop iteration `i`, which
observes status `st` (a delete call exactly when `st` is
`'downloading'`). -/
def final_round (i : Nat) (st : String) : List Ev :=
  Ev.resumeCall :: Ev.sleep 5 :: Ev.infoCheck i :: (if st == "downloading" then [Ev.deleteCall] else [])

/-- Status sequence `[finished, seeding, seeding, ...]` used as a concrete
instance of the correction workflow. -/
def c2_statuses : Nat → String :=
  fun i => if i = 0 then "finished" else "seeding"

/-- Mock server for the correction workflow whose status query soft-fails
(`{success: false}`) on the j-th read, reporting status `'finished'` on
every earlier read. -/
def c10_info_respond (j : Nat) : Nat → Request → JVal :=
  fun i _ =>
    if i < j then
      .obj [("success", .bool true),
            ("data", .obj [("tasks", .arr [.obj [("status", .str "finished")]])])]
    else
      .obj [("success", .bool false)]

/-- The `data` object the mock search server reports on the k-th status
check: `finished` is false on the first N checks and true from check N+1
on. -/
def mock_search_data (N : Nat) (payload : Nat → JVal) (k : Nat) : JVal :=
  .obj [("finished", .bool (decide (N < k))), ("payload", payload k)]

/-- Mock search server: request 0 is the start call (answered with a task
id); request k ≥ 1 is the k-th status check, answered with
`mock_search_data`. -/
def mock_search_respond (N : Nat) (payload : Nat → JVal) : Nat → Request → JVal :=
  fun k _ =>
    if k = 0 then .obj [("data", .obj [("taskid", .str "task-1")])]
    else .obj [("data", mock_search_data N payload k)]

/-- Expected trace of the polling loop of `bt_search_with_wait`: `n`
checks that find `finished` false (each followed by a 5 second sleep)
starting at check number `k`, then the check that exits the loop. -/
def poll_trace : Nat → Nat → List Ev
  | 0, k => [Ev.statusCheck k]
  | n + 1, k => Ev.statusCheck k :: Ev.sleep 5 :: poll_trace n (k + 1)

/-- Number of status checks recorded in a trace. -/
def count_status_checks (evs : List Ev) : Nat :=
  evs.countP Ev.isStatusCheck

/-- A concrete authenticated client used to instantiate the theorems. -/
def test_client : DownloadStationAPI :=
  ⟨"user", "pass", "192.0.0.1", "webapi", "5000", "http://192.0.0.1:5000/webapi", .str "sid-1"⟩

/-- A concrete per-check payload for the mock search server. -/
def test_payload : Nat → JVal :=
  fun k => .num (Int.ofNat k)

/-! Helper lemmas: reduction of the `Except` monad and of the concrete
JSON accesses performed by the workflows. -/

theorem exceptBind_ok {α β : Type} (a : α) (f : α → Except PyErr β) :
    (Except.ok a : Except PyErr α) >>= f = f a := rfl

theorem exceptBind_error {α β : Type} (e : PyErr) (f : α → Except PyErr β) :
    (Except.error e : Except PyErr α) >>= f = .error e := rfl

theorem resume_ok_respond (c : DownloadStationAPI) (tid : JVal) (i : Nat) :
    resume_download_task c tid (ok_respond i) = .ok true := rfl

theorem remove_ok_respond (c : DownloadStationAPI) (tid : JVal) (i : Nat) :
    remove_download_task c tid (ok_respond i) = .ok true := rfl

theorem info_mock_status (c : DownloadStationAPI) (tid : JVal)
    (statuses : Nat → String) (i : Nat) :
    get_individual_download_info c tid (mock_info_respond statuses i)
      = .ok (.obj [("tasks", .arr [.obj [("status", .str (statuses i))]])]) := rfl

theorem getItem_tasks_arr (a : JVal) :
    (JVal.obj [("tasks", a)]).getItem "tasks" = .ok a := rfl

theorem index_arr_zero (v : JVal) :
    (JVal.arr [v]).index 0 = .ok v := rfl

theorem getItem_status (v : JVal) :
    (JVal.obj [("status", v)]).getItem "status" = .ok v := rfl

theorem eqStr_str (s t : String) : (JVal.str s).eqStr t = (s == t) := rfl

theorem isFalse_bool (b : Bool) : (JVal.bool b).isFalse = !b := by cases b <;> rfl

theorem finished_beq_downloading : (("finished" : String) == "downloading") = false := by decide

theorem finished_beq_finished : (("finished" : String) == "finished") = true := by decide

theorem exceptPure_eq_ok {α : Type} (a : α) : (pure a : Except PyErr α) = .ok a := rfl

/-- Trace of the correction loop on a mock whose first non-`finished`
status is at read `k`: iterations `j, ..., k-1` observe `finished` and
loop; iteration `k` observes `statuses k` and exits. -/
theorem correct_loop_mock (c : DownloadStationAPI) (tid : JVal) (statuses : Nat → String)
    (k : Nat) (hk : (statuses k == "finished") = false) :
    ∀ fuel j, j ≤ k → k - j < fuel →
      (∀ i, j ≤ i → i < k → statuses i = "finished") →
      correct_loop c tid ok_respond (mock_info_respond statuses) ok_respond fuel j
        = .ok (some (finished_rounds (k - j) j ++ final_round k (statuses k))) := by
  intro fuel
  induction fuel with
  | zero => intro j _ hf _; omega
  | succ f ih =>
    intro j hj hf hfin
    rcases Nat.lt_or_ge j k with hjk | hjk
    · have hs : statuses j = "finished" := hfin j le_rfl hjk
      have hrec := ih (j + 1) (by omega) (by omega) (fun i h1 h2 => hfin i (by omega) h2)
      simp only [correct_loop, resume_ok_respond, exceptBind_ok, info_mock_status,
        getItem_tasks_arr, index_arr_zero, getItem_status, eqStr_str, hs,
        finished_beq_downloading, finished_beq_finished]
      simp only [Bool.false_eq_true, if_false, if_true, exceptBind_ok, exceptPure_eq_ok, hrec]
      have hkj : k - j = (k - (j + 1)) + 1 := by omega
      rw [hkj]
      simp [finished_rounds, exceptPure_eq_ok, exceptBind_ok]
    · have hjk' : j = k := by omega
      subst hjk'
      simp only [correct_loop, resume_ok_respond, exceptBind_ok, info_mock_status,
        getItem_tasks_arr, index_arr_zero, getItem_status, eqStr_str, hk]
      cases hd : (statuses j == "downloading") <;>
        simp only [hd, Bool.false_eq_true, if_false, if_true, remove_ok_respond,
          exceptBind_ok, exceptPure_eq_ok] <;>
        simp [final_round, finished_rounds, hd, Nat.sub_self, exceptPure_eq_ok, exceptBind_ok]

/-- On a mock that keeps reporting `finished` for at least `fuel` reads,
the correction loop is still running when the fuel runs out, whatever the
fuel: the loop has no bound of its own. -/
theorem correct_loop_mock_unbounded (c : DownloadStationAPI) (tid : JVal)
    (statuses : Nat → String) :
    ∀ fuel j, (∀ i, j ≤ i → i < j + fuel → statuses i = "finished") →
      correct_loop c tid ok_respond (mock_info_respond statuses) ok_respond fuel j
        = .ok none := by
  intro fuel
  induction fuel with
  | zero => intro j _; rfl
  | succ f ih =>
    intro j hfin
    have hs : statuses j = "finished" := hfin j le_rfl (by omega)
    have hrec := ih (j + 1) (fun i h1 h2 => hfin i (by omega) (by omega))
    simp only [correct_loop, resume_ok_respond, exceptBind_ok, info_mock_status,
      getItem_tasks_arr, index_arr_zero, getItem_status, eqStr_str, hs,
      finished_beq_downloading, finished_beq_finished]
    simp only [Bool.false_eq_true, if_false, if_true, exceptBind_ok, exceptPure_eq_ok, hrec]

theorem getItem_bool (b : Bool) (key : String) :
    (JVal.bool b).getItem key = .error .typeError := rfl

/-- C2: the correction workflow's loop body (resume, fixed 5-unit sleep,
re-read status) repeats exactly until the first observed status differing
from the literal `'finished'` — the comparison constant is never updated,
so a sequence like `finished, finished, ..., finished, X` runs one body
per observation and stops at `X`, whatever `X ≠ 'finished'` is — and once
the loop exits the workflow returns `true` unconditionally.  There is no
iteration bound: a mock that keeps answering `'finished'` outlives every
amount of fuel. -/
theorem C2_correction_loop_constant_comparison :
    (∀ (c : DownloadStationAPI) (tid : JVal) (statuses : Nat → String) (k fuel : Nat),
      ((List.range k).all fun i => statuses i == "finished") = true →
      (statuses k == "finished") = false →
      k + 1 ≤ fuel →
      correct_finished_downloads c tid ok_respond (mock_info_respond statuses) ok_respond fuel
        = .ok (some (true, finished_rounds k 0 ++ final_round k (statuses k)))) ∧
    (∀ (c : DownloadStationAPI) (tid : JVal) (statuses : Nat → String) (fuel : Nat),
      ((List.range fuel).all fun i => statuses i == "finished") = true →
      correct_finished_downloads c tid ok_respond (mock_info_respond statuses) ok_respond fuel
        = .ok none) := by
  constructor
  · intro c tid statuses k fuel hall hk hfuel
    have hfin : ∀ i, 0 ≤ i → i < k → statuses i = "finished" := by
      intro i _ hi
      exact eq_of_beq (List.all_eq_true.mp hall i (List.mem_range.mpr hi))
    have hloop := correct_loop_mock c tid statuses k hk fuel 0 (by omega) (by omega) hfin
    simp only [correct_finished_downloads, hloop, exceptBind_ok, Nat.sub_zero,
      exceptPure_eq_ok]
  · intro c tid statuses fuel hall
    have hfin : ∀ i, 0 ≤ i → i < 0 + fuel → statuses i = "finished" := by
      intro i _ hi
      exact eq_of_beq (List.all_eq_true.mp hall i (List.mem_range.mpr (by omega)))
    have hloop := correct_loop_mock_unbounded c tid statuses fuel 0 hfin
    simp only [correct_finished_downloads, hloop, exceptBind_ok, exceptPure_eq_ok]

/-- C2 witness: the theorem instantiated at the concrete status sequence
`finished, seeding, seeding, ...` (first non-finished read at index 1) and
at the all-finished sequence. -/
theorem C2_correction_loop_constant_comparison_witness :
    correct_finished_downloads test_client (.str "id") ok_respond
        (mock_info_respond c2_statuses) ok_respond 2
      = .ok (some (true, finished_rounds 1 0 ++ final_round 1 (c2_statuses 1))) ∧
    correct_finished_downloads test_client (.str "id") ok_respond
        (mock_info_respond fun _ => "finished") ok_respond 3
      = .ok none :=
  ⟨C2_correction_loop_constant_comparison.1 test_client (.str "id") c2_statuses 1 2
      (by decide) (by decide) (by decide),
   C2_correction_loop_constant_comparison.2 test_client (.str "id") (fun _ => "finished") 3
      (by decide)⟩

/-- The correction loop on the soft-failing mock: every iteration before
the failing read observes `'finished'` and loops; at read `j` the status
query returns `{success: false}`, `get_individual_download_info` hands
back the Python value `False`, and subscripting it with `['tasks']` raises
`TypeError`. -/
theorem c10_loop (c : DownloadStationAPI) (tid : JVal) (j : Nat) :
    ∀ fuel i, i ≤ j → j - i < fuel →
      correct_loop c tid ok_respond (c10_info_respond j) ok_respond fuel i
        = .error .typeError := by
  intro fuel
  induction fuel with
  | zero => intro i _ hf; omega
  | succ f ih =>
    intro i hi hf
    rcases Nat.lt_or_ge i j with hij | hij
    · have horacle : c10_info_respond j i = mock_info_respond (fun _ => "finished") i := by
        funext r
        simp [c10_info_respond, mock_info_respond, hij]
      have hrec := ih (i + 1) (by omega) (by omega)
      simp only [correct_loop, resume_ok_respond, exceptBind_ok, horacle, info_mock_status,
        getItem_tasks_arr, index_arr_zero, getItem_status, eqStr_str,
        finished_beq_downloading, finished_beq_finished]
      simp only [Bool.false_eq_true, if_false, if_true, exceptBind_ok, exceptPure_eq_ok, hrec]
      rfl
    · have horacle : c10_info_respond j i = fun _ => .obj [("success", .bool false)] := by
        funext r
        simp [c10_info_respond, Nat.not_lt.mpr hij]
      have hinfo : get_individual_download_info c tid (c10_info_respond j i) = .ok (.bool false) := by
        rw [horacle]
        rfl
      simp only [correct_loop, resume_ok_respond, exceptBind_ok, hinfo, getItem_bool,
        exceptBind_error]

/-- C10: whenever the status query soft-fails (`success == false`) at some
read `j` reached by the correction loop (all earlier reads reporting
`finished`), `get_individual_download_info` returns the Python `False`,
the loop immediately subscripts it with `['tasks']`, and the whole
workflow fails with a `TypeError` — it neither returns `false` nor
retries. -/
theorem C10_softfail_status_read_type_error (c : DownloadStationAPI) (tid : JVal)
    (j fuel : Nat) (h : j + 1 ≤ fuel) :
    correct_finished_downloads c tid ok_respond (c10_info_respond j) ok_respond fuel
      = .error .typeError := by
  have hloop := c10_loop c tid j fuel 0 (by omega) (by omega)
  simp only [correct_finished_downloads, hloop, exceptBind_error]

/-- C10 witness: the second status read (j = 1) soft-fails and the
workflow raises `TypeError`. -/
theorem C10_softfail_status_read_type_error_witness :
    correct_finished_downloads test_client (.str "id") ok_respond
        (c10_info_respond 1) ok_respond 2
      = .error .typeError :=
  C10_softfail_status_read_type_error test_client (.str "id") 1 2 (by decide)

theorem getItem_data_head (a : JVal) :
    (JVal.obj [("data", a)]).getItem "data" = .ok a := rfl

theorem getItem_finished_head (v : JVal) (rest : List (String × JVal)) :
    (JVal.obj (("finished", v) :: rest)).getItem "finished" = .ok v := rfl

theorem get_api_data_bt (nas_address : String) (params : List (String × JVal))
    (respond : Request → JVal) :
    (_get_api_data nas_address "DS_BT_Search" params respond).1
      = .ok (respond ⟨nas_address ++ "/" ++ "DownloadStation/btsearch.cgi"
          ++ "?api=" ++ "SYNO.DownloadStation.BTSearch", params⟩) := rfl

theorem get_api_data_raw_bt (nas_address : String) (params : List (String × JVal))
    (respondRaw : Request → HttpResponse) :
    (_get_api_data_raw nas_address "DS_BT_Search" params respondRaw).1
      = .ok (respondRaw ⟨nas_address ++ "/" ++ "DownloadStation/btsearch.cgi"
          ++ "?api=" ++ "SYNO.DownloadStation.BTSearch", params⟩) := rfl

theorem check_const_body (c : DownloadStationAPI) (tid : JVal) (qual : String) (body : JVal) :
    check_if_search_is_done c tid qual (fun _ => body)
      = (do
          let d ← body.getItem "data"
          let f ← d.getItem "finished"
          if f.isFalse then pure f else pure d : Except PyErr JVal) := rfl

/-- On the mock search server, the k-th status check returns the payload
object when `finished` is reported true (k > N) and the Python `False`
when it is reported false. -/
theorem check_mock (c : DownloadStationAPI) (tid : JVal) (qual : String)
    (N : Nat) (payload : Nat → JVal) (k : Nat) (hk : k ≠ 0) :
    check_if_search_is_done c tid qual (mock_search_respond N payload k)
      = if N < k then .ok (mock_search_data N payload k) else .ok (.bool false) := by
  have horacle : mock_search_respond N payload k
      = fun _ => JVal.obj [("data", mock_search_data N payload k)] := by
    funext r
    simp [mock_search_respond, hk]
  rw [horacle, check_const_body]
  simp only [getItem_data_head, exceptBind_ok, mock_search_data, getItem_finished_head,
    isFalse_bool]
  by_cases hN : N < k
  · simp [hN, mock_search_data, exceptPure_eq_ok]
  · simp [hN, mock_search_data, exceptPure_eq_ok]

/-- The polling loop of `bt_search_with_wait` on the mock: checks
`k, ..., N` find `finished` false and sleep 5 between consecutive checks;
check `N+1` finds it true and exits the loop. -/
theorem bt_search_poll_mock (c : DownloadStationAPI) (tid : JVal) (qual : String)
    (N : Nat) (payload : Nat → JVal) :
    ∀ fuel k, 1 ≤ k → k ≤ N + 1 → N + 1 - k < fuel →
      bt_search_poll c tid qual (mock_search_respond N payload) fuel k
        = .ok (some (N + 1, poll_trace (N + 1 - k) k)) := by
  intro fuel
  induction fuel with
  | zero => intro k _ _ hf; omega
  | succ f ih =>
    intro k hk1 hkN hf
    rcases Nat.lt_or_ge k (N + 1) with hlt | hge
    · have hN : ¬ N < k := by omega
      have hcheck := check_mock c tid qual N payload k (by omega)
      rw [if_neg hN] at hcheck
      have hrec := ih (k + 1) (by omega) (by omega) (by omega)
      simp only [bt_search_poll, hcheck, exceptBind_ok, isFalse_bool, Bool.not_false,
        if_true, hrec, exceptPure_eq_ok]
      have hkk : N + 1 - k = (N + 1 - (k + 1)) + 1 := by omega
      rw [hkk]
      simp [poll_trace, exceptBind_ok, exceptPure_eq_ok]
    · have hkeq : k = N + 1 := by omega
      subst hkeq
      have hN : N < N + 1 := by omega
      have hcheck := check_mock c tid qual N payload (N + 1) (by omega)
      rw [if_pos hN] at hcheck
      simp only [bt_search_poll, hcheck, exceptBind_ok, mock_search_data]
      simp [JVal.isFalse, poll_trace, Nat.sub_self, exceptPure_eq_ok]

theorem bt_search_with_wait_mock_unfold (c : DownloadStationAPI) (term qual : String)
    (N fuel : Nat) (payload : Nat → JVal) :
    bt_search_with_wait c term qual (mock_search_respond N payload) fuel
      = (do
          match ← bt_search_poll c (.str "task-1") qual (mock_search_respond N payload) fuel 1 with
          | none => pure none
          | some (kl, evs) => do
              let res ← check_if_search_is_done c (.str "task-1") qual
                  (mock_search_respond N payload (kl + 1))
              pure (some (res, Ev.sleep 2 :: (evs ++ [Ev.statusCheck (kl + 1)]))) :
          Except PyErr (Option (JVal × List Ev))) := rfl

theorem countP_poll_trace : ∀ n k, (poll_trace n k).countP Ev.isStatusCheck = n + 1 := by
  intro n
  induction n with
  | zero => intro k; rfl
  | succ m ih =>
    intro k
    simp [poll_trace, List.countP_cons, Ev.isStatusCheck, ih k.succ]

/-- C1 (amended): on a mock that reports `finished:false` on the first N
status checks and `finished:true` from check N+1 on, the poll-to-completion
workflow performs exactly N+2 status checks — the N+1 loop-condition
checks, with a fixed 5-unit sleep between consecutive ones, plus one
additional check issued after the loop exits, with no sleep before it —
and returns the payload of that final (N+2)-th check. -/
theorem C1_search_with_wait_check_count (c : DownloadStationAPI) (term qual : String)
    (N fuel : Nat) (payload : Nat → JVal) (h : N + 1 ≤ fuel) :
    bt_search_with_wait c term qual (mock_search_respond N payload) fuel
      = .ok (some (mock_search_data N payload (N + 2),
          Ev.sleep 2 :: (poll_trace N 1 ++ [Ev.statusCheck (N + 2)]))) ∧
    count_status_checks (Ev.sleep 2 :: (poll_trace N 1 ++ [Ev.statusCheck (N + 2)]))
      = N + 2 := by
  constructor
  · have hpoll := bt_search_poll_mock c (.str "task-1") qual N payload fuel 1
      (by omega) (by omega) (by omega)
    have hcheck := check_mock c (.str "task-1") qual N payload (N + 2) (by omega)
    rw [if_pos (by omega : N < N + 2)] at hcheck
    rw [bt_search_with_wait_mock_unfold]
    simp only [hpoll, exceptBind_ok, Nat.sub_self, hcheck, exceptPure_eq_ok]
    rfl
  · simp [count_status_checks, List.countP_cons, List.countP_append,
      countP_poll_trace, Ev.isStatusCheck]

/-- C1 counterexample: with N = 0 (the server reports `finished:true`
already on check 1) the workflow performs 2 status checks, not the
claimed N+1 = 1, and its trace contains no sleep between the two
consecutive checks. -/
theorem C1_search_with_wait_check_count_counterexample :
    bt_search_with_wait test_client "show" "720p" (mock_search_respond 0 test_payload) 1
      = .ok (some (mock_search_data 0 test_payload 2,
          [Ev.sleep 2, Ev.statusCheck 1, Ev.statusCheck 2])) ∧
    count_status_checks [Ev.sleep 2, Ev.statusCheck 1, Ev.statusCheck 2] = 2 ∧
    2 ≠ 0 + 1 ∧
    Ev.sleep 5 ∉ [Ev.sleep 2, Ev.statusCheck 1, Ev.statusCheck 2] := by
  refine ⟨rfl, rfl, by decide, by decide⟩

/-- C1 witness: the amended theorem instantiated at N = 1 with fuel 2. -/
theorem C1_search_with_wait_check_count_witness :
    1 + 1 ≤ 2 ∧
    (bt_search_with_wait test_client "show" "720p" (mock_search_respond 1 test_payload) 2
      = .ok (some (mock_search_data 1 test_payload 3,
          Ev.sleep 2 :: (poll_trace 1 1 ++ [Ev.statusCheck 3]))) ∧
    count_status_checks (Ev.sleep 2 :: (poll_trace 1 1 ++ [Ev.statusCheck 3])) = 3) :=
  ⟨by decide, C1_search_with_wait_check_count test_client "show" "720p" 1 2 test_payload
    (by decide)⟩

theorem getItem_taskid_head (v : JVal) :
    (JVal.obj [("taskid", v)]).getItem "taskid" = .ok v := rfl

/-- C3: with the status sequence `[finished, seeding]` (the loop variable
starts at the literal `'finished'` and the first in-loop read observes
`'seeding'`), the correction workflow terminates after exactly one resume
call and one status read and returns `true`; with `[finished,
downloading]` it issues exactly one delete call before the loop condition
becomes false and the workflow exits. -/
theorem C3_correction_concrete_sequences :
    correct_finished_downloads test_client (.str "id") ok_respond
        (mock_info_respond fun _ => "seeding") ok_respond 1
      = .ok (some (true, [Ev.resumeCall, Ev.sleep 5, Ev.infoCheck 0])) ∧
    ([Ev.resumeCall, Ev.sleep 5, Ev.infoCheck 0].countP Ev.isResume = 1 ∧
     [Ev.resumeCall, Ev.sleep 5, Ev.infoCheck 0].countP Ev.isInfoCheck = 1 ∧
     [Ev.resumeCall, Ev.sleep 5, Ev.infoCheck 0].countP Ev.isDelete = 0) ∧
    correct_finished_downloads test_client (.str "id") ok_respond
        (mock_info_respond fun _ => "downloading") ok_respond 1
      = .ok (some (true, [Ev.resumeCall, Ev.sleep 5, Ev.infoCheck 0, Ev.deleteCall])) ∧
    [Ev.resumeCall, Ev.sleep 5, Ev.infoCheck 0, Ev.deleteCall].countP Ev.isDelete = 1 := by
  refine ⟨rfl, ⟨rfl, rfl, rfl⟩, rfl, rfl⟩

/-- C4 counterexample: dispatching the absent logical name `"bogus"`
fails with `AttributeError` — the generic Python error from calling
`.get` on the `None` that the registry lookup produced — which is not a
dedicated `UnknownEndpoint` error; no request is issued. -/
theorem C4_unknown_endpoint_counterexample :
    nas_api_endpoint_details.lookup "bogus" = none ∧
    _get_api_data "http://192.0.0.1:5000/webapi" "bogus" [] (fun _ => .obj [])
      = (.error .attributeError, 0) ∧
    specNameOfPyErr .attributeError ≠ "UnknownEndpoint" := by
  refine ⟨rfl, rfl, by decide⟩

/-- C4 (amended): for every logical endpoint name absent from the
registry, `_get_api_data` fails before issuing any HTTP request — but
with the built-in `AttributeError` (from `endpoint_info.get` on `None`),
not with a dedicated `UnknownEndpoint` error, which does not exist in the
code. -/
theorem C4_unknown_endpoint_no_network (nas_address name : String)
    (params : List (String × JVal)) (respond : Request → JVal)
    (h : nas_api_endpoint_details.lookup name = none) :
    _get_api_data nas_address name params respond = (.error .attributeError, 0) := by
  simp [_get_api_data, h]

/-- C4 witness: the amended theorem instantiated at the absent name
`"bogus"`. -/
theorem C4_unknown_endpoint_no_network_witness :
    nas_api_endpoint_details.lookup "bogus" = none ∧
    _get_api_data "http://a" "bogus" [] (fun _ => .obj [])
      = (.error .attributeError, 0) :=
  ⟨rfl, C4_unknown_endpoint_no_network "http://a" "bogus" [] (fun _ => .obj []) rfl⟩

/-- C5 counterexample: a start response lacking a task id makes
`bt_search_with_wait` crash with the built-in `KeyError` (no
`SearchStartError` exists in the code), and a non-200 start status makes
`bt_search_for_show` log and return `None` silently rather than fail. -/
theorem C5_search_start_counterexample :
    bt_search_with_wait test_client "x" "720p"
        (fun _ _ => .obj [("data", .obj [("finished", .bool false)])]) 1
      = .error .keyError ∧
    specNameOfPyErr .keyError ≠ "SearchStartError" ∧
    bt_search_for_show test_client "x" 30 "720p"
        (fun _ _ => ⟨500, .obj [("data", .obj [("taskid", .str "t")])]⟩)
      = .ok none := by
  refine ⟨rfl, by decide, rfl⟩

/-- C5 (amended): when the start response lacks a task id, both search
workflows crash with a `KeyError` (raised, in `bt_search_for_show`, even
before the HTTP status is examined); when the start call returns a
non-200 status but carries a task id, `bt_search_for_show` logs and
returns `None`, and `bt_search_with_wait` never inspects the HTTP status
at all.  No `SearchStartError` is raised anywhere. -/
theorem C5_search_start_failure_modes (c : DownloadStationAPI) (term qual : String)
    (w fuel code code2 : Nat) (rest : List (String × JVal)) (tid : JVal)
    (h : rest.lookup "taskid" = none) (hc : code ≠ 200) :
    bt_search_with_wait c term qual (fun _ _ => .obj [("data", .obj rest)]) fuel
      = .error .keyError ∧
    bt_search_for_show c term w qual (fun _ _ => ⟨code2, .obj [("data", .obj rest)]⟩)
      = .error .keyError ∧
    bt_search_for_show c term w qual (fun _ _ => ⟨code, .obj [("data", .obj [("taskid", tid)])]⟩)
      = .ok none := by
  have hstart : (JVal.obj rest).getItem "taskid" = .error .keyError := by
    simp [JVal.getItem, h]
  refine ⟨?_, ?_, ?_⟩
  · simp only [bt_search_with_wait, get_api_data_bt, exceptBind_ok, getItem_data_head,
      hstart, exceptBind_error]
  · simp only [bt_search_for_show, get_api_data_raw_bt, exceptBind_ok, getItem_data_head,
      hstart, exceptBind_error]
  · simp only [bt_search_for_show, get_api_data_raw_bt, exceptBind_ok, getItem_data_head,
      getItem_taskid_head]
    rw [if_neg hc]
    simp only [exceptBind_ok, exceptPure_eq_ok]

/-- C5 witness: the amended theorem instantiated with an empty start
payload and status code 500 — in particular the missing-taskid conjunct is
exercised at the non-200 status 500, where the `KeyError` precedes the
status examination. -/
theorem C5_search_start_failure_modes_witness :
    ([] : List (String × JVal)).lookup "taskid" = none ∧ (500 : Nat) ≠ 200 ∧
    (bt_search_with_wait test_client "x" "720p" (fun _ _ => .obj [("data", .obj [])]) 1
      = .error .keyError ∧
    bt_search_for_show test_client "x" 30 "720p" (fun _ _ => ⟨500, .obj [("data", .obj [])]⟩)
      = .error .keyError ∧
    bt_search_for_show test_client "x" 30 "720p"
        (fun _ _ => ⟨500, .obj [("data", .obj [("taskid", .str "t")])]⟩)
      = .ok none) :=
  ⟨rfl, by decide,
   C5_search_start_failure_modes test_client "x" "720p" 30 1 500 500 [] (.str "t") rfl
     (by decide)⟩

/-- C6: `authenticate` on `{success:true, data:{sid:"X"}}` returns the
session id `"X"`; on `{success:false}` it raises the authentication error
(the code's `AuthError` class, which the spec calls
`AuthenticationError`), and client construction
(`DownloadStationAPI.__init__`), which blocks on `authenticate`, fails
the same way, producing no session id. -/
theorem C6_authenticate_success_and_failure (x u p addr s f m ip port ep : String)
    (v : Int) :
    authenticate u p addr s f m v
        (fun _ => .obj [("success", .bool true), ("data", .obj [("sid", .str x)])])
      = .ok (.str x) ∧
    authenticate u p addr s f m v (fun _ => .obj [("success", .bool false)])
      = .error .authError ∧
    specNameOfPyErr .authError = "AuthenticationError" ∧
    DownloadStationAPI.init u p ip port ep (fun _ => .obj [("success", .bool false)])
      = .error .authError := by
  refine ⟨rfl, rfl, rfl, rfl⟩

/-- C7: every task-operation parameter map — list, get-info, create,
resume, delete — carries the session id `_sid` as its last entry, for
every session id and every operation input. -/
theorem C7_sid_is_last_parameter (sid download_task_id : JVal) (url destination : String) :
    (get_download_info_params sid).getLast? = some ("_sid", sid) ∧
    (get_individual_download_info_params download_task_id sid).getLast?
      = some ("_sid", sid) ∧
    (add_download_task_params url destination sid).getLast? = some ("_sid", sid) ∧
    (resume_params download_task_id sid).getLast? = some ("_sid", sid) ∧
    (delete_params download_task_id sid).getLast? = some ("_sid", sid) := by
  refine ⟨rfl, rfl, rfl, rfl, rfl⟩

/-- C8: for every input URL and destination pair, `add_download_task`
returns exactly `v is True` where `v` is the `success` field of the
remote response — so it returns `true` iff `success == true`, and returns
`false` (no exception) for any other `success` value. -/
theorem C8_add_download_task_boolean_contract (c : DownloadStationAPI)
    (url destination : String) (v : JVal) (rest : List (String × JVal)) :
    add_download_task c url destination (fun _ => .obj (("success", v) :: rest))
      = .ok v.isTrue ∧
    (v.isTrue = true ↔ v = .bool true) := by
  refine ⟨rfl, ?_⟩
  cases v with
  | bool b => cases b <;> simp [JVal.isTrue]
  | num n => simp [JVal.isTrue]
  | str s => simp [JVal.isTrue]
  | arr es => simp [JVal.isTrue]
  | obj fs => simp [JVal.isTrue]

/-- C9: two `remove_download_task` calls on an already-deleted task id,
each answered with `success:false`, both return the same soft-failure
`false` — an `Except.ok` value, so no exception is raised on either
call. -/
theorem C9_remove_twice_soft_failure (c : DownloadStationAPI) (download_task_id : JVal)
    (rest1 rest2 : List (String × JVal)) :
    remove_download_task c download_task_id
        (fun _ => .obj (("success", .bool false) :: rest1)) = .ok false ∧
    remove_download_task c download_task_id
        (fun _ => .obj (("success", .bool false) :: rest2)) = .ok false := by
  refine ⟨rfl, rfl⟩
